import Mathlib

/-!
Shallow embedding of the `packedit` network-header codec (Rust) in Lean 4.

Modelling conventions, applied uniformly:
* Byte buffers (`Vec<u8>`, `&[u8]`) are `List Nat`; every byte produced by a
  decoder is a value `< 256` because it comes out of such a list unmodified.
* Machine integers are `Nat` with explicit `% 2 ^ w` exactly where the Rust
  code can overflow or truncates by a cast (`as u8`, `as u16`).  Arithmetic
  follows release-mode semantics: overflowing operations wrap.
* Indexing `bytes[i]`, slicing `bytes[a..b]` / `bytes[a..]`, and
  `copy_from_slice` are checked operations returning `Except Err _`;
  out-of-bounds access and slice-length mismatch are panics in Rust and
  become `.error` values here, as does every explicit `panic!` /
  `unimplemented!`.
* Loops that walk a buffer are modelled by structural recursion on a fuel
  counter initialised at call sites to a value that dominates the number of
  iterations (each iteration advances the cursor by at least one byte inside
  a range bounded by the buffer or header length, so the fuel can never be
  exhausted); running out of fuel yields the distinguished error `.loopFuel`.
-/

/-- Failure conditions of the embedded Rust code.  Every constructor except
`lengthError` corresponds to a way the Rust source can panic; `lengthError`
is the typed error of the specification's error taxonomy, which nothing in
this code base ever produces (the code signals all failures by panicking). -/
inductive Err : Type
  /-- Typed `LengthError` result from the spec's taxonomy (never produced). -/
  | lengthError : Err
  /-- An explicit `panic!` in the source. -/
  | panicked : Err
  /-- Index or slice out of bounds. -/
  | indexOutOfBounds : Err
  /-- `copy_from_slice` with mismatched source/destination lengths. -/
  | sliceLenMismatch : Err
  /-- An `unimplemented!` in the source. -/
  | unimplemented : Err
  /-- Loop fuel exhausted (unreachable; see module comment). -/
  | loopFuel : Err
deriving DecidableEq, Repr

/-- Checked indexing: Rust `bytes[i]` for `i : usize`. -/
def idx (l : List Nat) (i : Nat) : Except Err Nat :=
  match l.get? i with
  | some v => .ok v
  | none => .error .indexOutOfBounds

/-- Checked slicing: Rust `&bytes[a..b]`. -/
def subSlice (l : List Nat) (a b : Nat) : Except Err (List Nat) :=
  if a ≤ b ∧ b ≤ l.length then .ok ((l.drop a).take (b - a))
  else .error .indexOutOfBounds

/-- Checked suffix slicing: Rust `&bytes[a..]`. -/
def sliceFrom (l : List Nat) (a : Nat) : Except Err (List Nat) :=
  if a ≤ l.length then .ok (l.drop a) else .error .indexOutOfBounds

/-- Rust `dst[a..b].copy_from_slice(src)`: panics unless the destination
range is in bounds and `src` has exactly the range's length. -/
def copyFromSlice (dst : List Nat) (a b : Nat) (src : List Nat) :
    Except Err (List Nat) :=
  if a ≤ b ∧ b ≤ dst.length ∧ src.length = b - a then
    .ok (dst.take a ++ src ++ dst.drop b)
  else .error .sliceLenMismatch

/-- Rust `u16::to_be_bytes` on an arbitrary `Nat` holding a `u16` value. -/
def u16be (x : Nat) : List Nat := [x / 256 % 256, x % 256]

/-- Rust `u32::to_be_bytes`. -/
def u32be (x : Nat) : List Nat :=
  [x / 16777216 % 256, x / 65536 % 256, x / 256 % 256, x % 256]

/-- Big-endian recomposition of a byte list (`u128::from_be_bytes` etc.). -/
def beNat (l : List Nat) : Nat := l.foldl (fun a b => a * 256 + b) 0

/-- Boolean success test for `Except`. -/
def isOkE {α : Type} : Except Err α → Bool
  | .ok _ => true
  | .error _ => false

theorem exceptBind_ok {α β : Type} {x : Except Err α} {f : α → Except Err β}
    {r : β} (h : x.bind f = .ok r) : ∃ a, x = .ok a ∧ f a = .ok r := by
  cases x with
  | ok a => exact ⟨a, rfl, h⟩
  | error e => simp [Except.bind] at h

theorem isOkE_bind {α β : Type} {x : Except Err α} {f : α → Except Err β}
    (h : isOkE (x.bind f) = true) : ∃ a, x = .ok a ∧ isOkE (f a) = true := by
  cases x with
  | ok a => exact ⟨a, rfl, h⟩
  | error e => simp [Except.bind, isOkE] at h

theorem idx_ok_lt {l : List Nat} {i v : Nat} (h : idx l i = .ok v) :
    i < l.length := by
  unfold idx at h
  cases hg : l.get? i with
  | some w => exact (List.get?_eq_some.mp hg).1
  | none => rw [hg] at h; exact absurd h (by simp)

/-! ## util.rs -/

namespace util

/-- util.rs: one step of the 16-bit word summation in `checksum`:
`for word in bytes.chunks(2) { sum += u16::from_be_bytes([word[0], word[1]]) as u32 }`
with the `u32` addition wrapping mod 2^32.  The padding performed by
`checksum` guarantees the list has even length, so the one-element chunk
(which would panic in Rust on `word[1]`) is unreachable and folded into the
base case. -/
def sum16 : List Nat → Nat → Nat
  | b0 :: b1 :: rest, s => sum16 rest ((s + (b0 * 256 + b1)) % 4294967296)
  | _, s => s

/-- util.rs: the carry-folding loop of `checksum`:
`while sum > 0xFFFF { sum = (sum >> 16) + (sum & 0xFFFF) }`. -/
def foldCarries (sum : Nat) : Nat :=
  if h : sum > 0xFFFF then foldCarries (sum / 65536 + sum % 65536) else sum
termination_by sum
decreasing_by omega

/-- util.rs `checksum`: pad to even length with one zero byte, sum the 16-bit
big-endian words into a 32-bit accumulator, fold the carries, and return the
bitwise complement of the low 16 bits (`!sum as u16`). -/
def checksum (bytes : List Nat) : Nat :=
  let padded := if bytes.length % 2 == 1 then bytes ++ [0] else bytes
  let sum := foldCarries (sum16 padded 0)
  (4294967295 - sum) % 65536

/-- util.rs `MacAddress` (the `[u8; 6]` address used by ARP). -/
structure MacAddress : Type where
  bytes : List Nat
deriving DecidableEq, Repr

/-- util.rs `MacAddress::new`. -/
def MacAddress.new : MacAddress := ⟨List.replicate 6 0⟩

/-- util.rs `MacAddress::from_slice`: explicit panic when fewer than 6 bytes,
then `copy_from_slice` into a `[u8; 6]`, which additionally panics when the
slice is longer than 6. -/
def MacAddress.from_slice (bytes : List Nat) : Except Err MacAddress :=
  if bytes.length < 6 then .error .panicked
  else if bytes.length = 6 then .ok ⟨bytes⟩
  else .error .sliceLenMismatch

/-- util.rs `DscpType`. -/
inductive DscpType : Type
  | CS0 | CS1 | CS2 | CS3 | CS4 | CS5 | CS6 | CS7 | EF
deriving DecidableEq, Repr

/-- util.rs `DscpType::from_bits`: panics on any value outside the closed set. -/
def DscpType.from_bits (value : Nat) : Except Err DscpType :=
  match value with
  | 0 => .ok .CS0
  | 8 => .ok .CS1
  | 16 => .ok .CS2
  | 24 => .ok .CS3
  | 32 => .ok .CS4
  | 40 => .ok .CS5
  | 48 => .ok .CS6
  | 56 => .ok .CS7
  | 46 => .ok .EF
  | _ => .error .panicked

/-- util.rs `DscpType::to_bits`. -/
def DscpType.to_bits : DscpType → Nat
  | .CS0 => 0
  | .CS1 => 8
  | .CS2 => 16
  | .CS3 => 24
  | .CS4 => 32
  | .CS5 => 40
  | .CS6 => 48
  | .CS7 => 56
  | .EF => 46

/-- util.rs `EcnType`. -/
inductive EcnType : Type
  | NotECT | ECT0 | ECT1 | CE
deriving DecidableEq, Repr

/-- util.rs `EcnType::from_bits`: panics on values ≥ 4. -/
def EcnType.from_bits (value : Nat) : Except Err EcnType :=
  match value with
  | 0 => .ok .NotECT
  | 1 => .ok .ECT1
  | 2 => .ok .ECT0
  | 3 => .ok .CE
  | _ => .error .panicked

/-- util.rs `EcnType::to_bits`. -/
def EcnType.to_bits : EcnType → Nat
  | .NotECT => 0
  | .ECT1 => 1
  | .ECT0 => 2
  | .CE => 3

end util

/-- The RFC 1071 checksum exactly as the specification words it: append one
zero byte if the input length is odd, view the result as 16-bit big-endian
words, sum them into a 32-bit accumulator, fold carries while the sum
exceeds 0xFFFF, and return the one's complement of the low 16 bits.  This
definition follows the spec text, to be compared with `util.checksum`,
which is translated from the source. -/
def checksumSpec (bytes : List Nat) : Nat :=
  let padded := if bytes.length % 2 == 1 then bytes ++ [0] else bytes
  let words := toWords padded
  let acc := words.foldl (fun s w => (s + w) % 4294967296) 0
  65535 - util.foldCarries acc % 65536
where
  /-- 16-bit big-endian words of a byte list (a lone trailing byte, which
  cannot occur after padding, is treated as the high byte of a word). -/
  toWords : List Nat → List Nat
    | [] => []
    | [b] => [b * 256]
    | b0 :: b1 :: rest => (b0 * 256 + b1) :: toWords rest

/-! ## ethernet.rs -/

namespace ethernet

/-- ethernet.rs `MacAddress` (a second, file-local copy of the type). -/
structure MacAddress : Type where
  bytes : List Nat
deriving DecidableEq, Repr

/-- ethernet.rs `MacAddress::from_slice`: panics when fewer than 6 bytes,
otherwise copies exactly the first six bytes. -/
def MacAddress.from_slice (bytes : List Nat) : Except Err MacAddress :=
  if bytes.length < 6 then .error .panicked
  else .ok ⟨bytes.take 6⟩

end ethernet

/-- ethernet.rs `EthernetPacket`. -/
structure EthernetPacket : Type where
  destination : ethernet.MacAddress
  source : ethernet.MacAddress
  protocol : Nat
  payload : List Nat
deriving DecidableEq, Repr

/-- ethernet.rs `EthernetPacket::from_bytes`: panics (message: bytes len must
be at least 15) when `bytes.len() < 15`, then reads destination from bytes
0–5, source from 6–11, the big-endian protocol from 12–13, and copies the
remainder from byte 14 on as the payload. -/
def EthernetPacket.from_bytes (bytes : List Nat) : Except Err EthernetPacket :=
  if bytes.length < 15 then .error .panicked
  else
    (subSlice bytes 0 6).bind fun d =>
    (ethernet.MacAddress.from_slice d).bind fun dst =>
    (subSlice bytes 6 12).bind fun s =>
    (ethernet.MacAddress.from_slice s).bind fun src =>
    (idx bytes 12).bind fun b12 =>
    (idx bytes 13).bind fun b13 =>
    .ok { destination := dst, source := src,
          protocol := b12 * 256 + b13, payload := bytes.drop 14 }

/-! ## std::net address types -/

/-- `std::net::Ipv4Addr`: a 32-bit value; `octets()` is its 4 big-endian
bytes, so the octet list always has length 4. -/
structure Ipv4Addr : Type where
  bits : Nat
deriving DecidableEq, Repr

/-- `Ipv4Addr::new(a, b, c, d)`. -/
def Ipv4Addr.new (a b c d : Nat) : Ipv4Addr :=
  ⟨((a % 256) * 16777216 + (b % 256) * 65536 + (c % 256) * 256 + d % 256)⟩

/-- `Ipv4Addr::octets`. -/
def Ipv4Addr.octets (a : Ipv4Addr) : List Nat := u32be a.bits

/-- `std::net::Ipv6Addr`: a 128-bit value; `octets()` is its 16 big-endian
bytes. -/
structure Ipv6Addr : Type where
  bits : Nat
deriving DecidableEq, Repr

/-- `Ipv6Addr::octets`. -/
def Ipv6Addr.octets (a : Ipv6Addr) : List Nat :=
  (List.range 16).map fun i => a.bits / 256 ^ (15 - i) % 256

/-- `std::net::IpAddr`. -/
inductive IpAddr : Type
  | V4 : Ipv4Addr → IpAddr
  | V6 : Ipv6Addr → IpAddr
deriving DecidableEq, Repr

/-! ## udp.rs -/

/-- udp.rs `UdpPacket`. -/
structure UdpPacket : Type where
  source : Nat
  destination : Nat
  length : Nat
  checksum : Nat
  payload : List Nat
deriving DecidableEq, Repr

/-- udp.rs `UdpPacket::new`. -/
def UdpPacket.new : UdpPacket :=
  { source := 0, destination := 0, length := 0, checksum := 0, payload := [] }

/-- udp.rs `UdpPacket::from_bytes` (impl Packet): reads the four big-endian
`u16` fields from bytes 0–7 with unchecked indexing (no length validation at
all) and copies the remainder from byte 8 as the payload. -/
def UdpPacket.from_bytes (bytes : List Nat) : Except Err UdpPacket :=
  (idx bytes 0).bind fun b0 =>
  (idx bytes 1).bind fun b1 =>
  (idx bytes 2).bind fun b2 =>
  (idx bytes 3).bind fun b3 =>
  (idx bytes 4).bind fun b4 =>
  (idx bytes 5).bind fun b5 =>
  (idx bytes 6).bind fun b6 =>
  (idx bytes 7).bind fun b7 =>
  .ok { source := b0 * 256 + b1, destination := b2 * 256 + b3,
        length := b4 * 256 + b5, checksum := b6 * 256 + b7,
        payload := bytes.drop 8 }

/-- udp.rs `UdpPacket::header_to_bytes`: the concatenation of the four
big-endian `u16` fields. -/
def UdpPacket.header_to_bytes (p : UdpPacket) : List Nat :=
  u16be p.source ++ u16be p.destination ++ u16be p.length ++ u16be p.checksum

/-- udp.rs `UdpPacket::to_bytes`: header then payload. -/
def UdpPacket.to_bytes (p : UdpPacket) : List Nat :=
  p.header_to_bytes ++ p.payload

/-- udp.rs `UdpPacket::recalculate_length`: `length = to_bytes().len() as u16`. -/
def UdpPacket.recalculate_length (p : UdpPacket) : UdpPacket :=
  { p with length := p.to_bytes.length % 65536 }

/-- udp.rs `UdpPacket::recalculate_checksum`: zero the checksum bytes (6 and 7)
of the encoded packet, build the pseudo-header for the matching IP family,
and run the checksum; mixed address families panic. -/
def UdpPacket.recalculate_checksum (p : UdpPacket)
    (source_ip destination_ip : IpAddr) : Except Err UdpPacket :=
  let packet := (p.to_bytes.set 6 0).set 7 0
  match source_ip, destination_ip with
  | .V4 source, .V4 destination =>
      let pseudo_header :=
        source.octets ++ destination.octets ++ [0, 17] ++
        u16be (packet.length % 65536) ++ packet
      .ok { p with checksum := util.checksum pseudo_header }
  | .V6 source, .V6 destination =>
      let pseudo_header :=
        source.octets ++ destination.octets ++
        u32be (packet.length % 4294967296) ++ [0, 0, 0, 17] ++ packet
      .ok { p with checksum := util.checksum pseudo_header }
  | _, _ => .error .panicked

/-- udp.rs `UdpPacket::recalculate_all`: length then checksum. -/
def UdpPacket.recalculate_all (p : UdpPacket)
    (source_ip destination_ip : IpAddr) : Except Err UdpPacket :=
  p.recalculate_length.recalculate_checksum source_ip destination_ip

/-! ## tcp.rs -/

/-- tcp.rs `TcpOption`. -/
structure TcpOption : Type where
  kind : Nat
  length : Nat
  data : List Nat
deriving DecidableEq, Repr

/-- tcp.rs `TcpOption::from_bytes`: kind from byte 0, length field from
byte 1, data from byte 2 on (unchecked indexing). -/
def TcpOption.from_bytes (bytes : List Nat) : Except Err TcpOption :=
  (idx bytes 0).bind fun b0 =>
  (idx bytes 1).bind fun b1 =>
  .ok { kind := b0, length := b1, data := bytes.drop 2 }

/-- tcp.rs `TcpOption::to_bytes`: kind byte, length byte, then the data. -/
def TcpOption.to_bytes (o : TcpOption) : List Nat :=
  o.kind :: o.length :: o.data

/-- tcp.rs `TcpOption::recalculate_length`: `length = data.len() as u8 + 2`. -/
def TcpOption.recalculate_length (o : TcpOption) : TcpOption :=
  { o with length := (o.data.length % 256 + 2) % 256 }

/-- tcp.rs `TcpFlags`. -/
structure TcpFlags : Type where
  nonce_sum : Bool
  cwr : Bool
  ece : Bool
  urg : Bool
  ack : Bool
  psh : Bool
  rst : Bool
  syn : Bool
  fin : Bool
deriving DecidableEq, Repr

/-- tcp.rs `TcpFlags::new`. -/
def TcpFlags.new : TcpFlags :=
  { nonce_sum := false, cwr := false, ece := false, urg := false,
    ack := false, psh := false, rst := false, syn := false, fin := false }

/-- tcp.rs `TcpFlags::from_bits`: the eight classic flags are the bits of
`other`, most significant first. -/
def TcpFlags.from_bits (nonce_sum : Bool) (other : Nat) : TcpFlags :=
  { nonce_sum := nonce_sum,
    cwr := (other &&& 128) != 0,
    ece := (other &&& 64) != 0,
    urg := (other &&& 32) != 0,
    ack := (other &&& 16) != 0,
    psh := (other &&& 8) != 0,
    rst := (other &&& 4) != 0,
    syn := (other &&& 2) != 0,
    fin := (other &&& 1) != 0 }

/-- tcp.rs `TcpFlags::to_bits`: the `nonce_sum` flag and the byte packing the
other eight flags, cwr down to fin. -/
def TcpFlags.to_bits (f : TcpFlags) : Bool × Nat :=
  (f.nonce_sum,
   f.cwr.toNat <<< 7 ||| f.ece.toNat <<< 6 ||| f.urg.toNat <<< 5 |||
   f.ack.toNat <<< 4 ||| f.psh.toNat <<< 3 ||| f.rst.toNat <<< 2 |||
   f.syn.toNat <<< 1 ||| f.fin.toNat)

/-- tcp.rs `TcpPacket`. -/
structure TcpPacket : Type where
  source : Nat
  destination : Nat
  sequence_number : Nat
  acknowledgement_number : Nat
  data_offset : Nat
  flags : TcpFlags
  window_size : Nat
  checksum : Nat
  urgent_pointer : Nat
  options : List TcpOption
  payload : List Nat
deriving DecidableEq, Repr

/-- tcp.rs `TcpPacket::new`. -/
def TcpPacket.new : TcpPacket :=
  { source := 0, destination := 0, sequence_number := 0,
    acknowledgement_number := 0, data_offset := 0, flags := TcpFlags.new,
    window_size := 0, checksum := 0, urgent_pointer := 0,
    options := [], payload := [] }

/-- tcp.rs: the option-parsing loop of `TcpPacket::from_bytes`
(`while i < data_offset`): byte 0 at the cursor ends the options, byte 1 is
a one-byte no-op, anything else starts an option whose slice runs from the
cursor over `bytes[i + 1]` bytes; the cursor advances by that length.  The
fuel dominates the iteration count because each iteration advances the
cursor inside `[20, off)` or stops. -/
def tcpOptLoop (bytes : List Nat) (off : Nat) : Nat → Nat → Except Err (List TcpOption)
  | 0, _ => .error .loopFuel
  | fuel + 1, i =>
    if i < off then
      (idx bytes i).bind fun bi =>
      if bi = 0 then .ok []
      else if bi = 1 then tcpOptLoop bytes off fuel (i + 1)
      else
        (idx bytes (i + 1)).bind fun len =>
        (subSlice bytes i (i + len)).bind fun sl =>
        (TcpOption.from_bytes sl).bind fun o =>
        (tcpOptLoop bytes off fuel (i + len)).bind fun rest =>
        .ok (o :: rest)
    else .ok []

/-- tcp.rs `TcpPacket::from_bytes`: explicit panic when fewer than 20 bytes;
fixed fields from bytes 0–19 (`data_offset` is the top nibble of byte 12
times 4, `nonce_sum` is bit 0 of byte 12, the other flags are byte 13);
options parsed from byte 20 up to `data_offset`; payload is everything from
`data_offset` on. -/
def TcpPacket.from_bytes (bytes : List Nat) : Except Err TcpPacket :=
  if bytes.length < 20 then .error .panicked
  else
    (idx bytes 0).bind fun b0 =>
    (idx bytes 1).bind fun b1 =>
    (idx bytes 2).bind fun b2 =>
    (idx bytes 3).bind fun b3 =>
    (idx bytes 4).bind fun b4 =>
    (idx bytes 5).bind fun b5 =>
    (idx bytes 6).bind fun b6 =>
    (idx bytes 7).bind fun b7 =>
    (idx bytes 8).bind fun b8 =>
    (idx bytes 9).bind fun b9 =>
    (idx bytes 10).bind fun b10 =>
    (idx bytes 11).bind fun b11 =>
    (idx bytes 12).bind fun b12 =>
    (idx bytes 13).bind fun b13 =>
    (idx bytes 14).bind fun b14 =>
    (idx bytes 15).bind fun b15 =>
    (idx bytes 16).bind fun b16 =>
    (idx bytes 17).bind fun b17 =>
    (idx bytes 18).bind fun b18 =>
    (idx bytes 19).bind fun b19 =>
    let data_offset := (b12 >>> 4) * 4
    (if bytes.length > 20 then tcpOptLoop bytes data_offset (data_offset + 1) 20
     else .ok []).bind fun options =>
    (sliceFrom bytes data_offset).bind fun payload =>
    .ok { source := b0 * 256 + b1, destination := b2 * 256 + b3,
          sequence_number := b4 * 16777216 + b5 * 65536 + b6 * 256 + b7,
          acknowledgement_number := b8 * 16777216 + b9 * 65536 + b10 * 256 + b11,
          data_offset := data_offset,
          flags := TcpFlags.from_bits ((b12 &&& 1) != 0) b13,
          window_size := b14 * 256 + b15, checksum := b16 * 256 + b17,
          urgent_pointer := b18 * 256 + b19,
          options := options, payload := payload }

/-- tcp.rs `TcpPacket::header_to_bytes`: the writes into `vec![0u8; 20]` at
byte ranges 0–1 (source), 2–3 (destination), 4–7 (sequence), 8–11 (ack),
12 (data offset nibble, with shifted-out bits of the `u8` shift discarded,
or-ed with the nonce-sum bit), 13 (flag byte), 14–15 (window), 16–17
(checksum), 18–19 (urgent pointer) are contiguous and cover the vector
exactly, so the result of the write sequence is their concatenation; the
option bytes are appended, then NOP(1) padding and a final EOL(0) byte pad
the length to a multiple of 4. -/
def TcpPacket.header_to_bytes (p : TcpPacket) : List Nat :=
  let flags := p.flags.to_bits
  let base := u16be p.source ++ u16be p.destination ++
    u32be p.sequence_number ++ u32be p.acknowledgement_number ++
    [((p.data_offset / 4) <<< 4) % 256 ||| flags.fst.toNat, flags.snd] ++
    u16be p.window_size ++ u16be p.checksum ++ u16be p.urgent_pointer
  let withOpts := base ++ (p.options.map TcpOption.to_bytes).flatten
  let padding := withOpts.length % 4
  if padding ≠ 0 then withOpts ++ List.replicate (4 - padding - 1) 1 ++ [0]
  else withOpts

/-- tcp.rs `TcpPacket::to_bytes`: header then payload. -/
def TcpPacket.to_bytes (p : TcpPacket) : List Nat :=
  p.header_to_bytes ++ p.payload

/-- tcp.rs `TcpPacket::recalculate_data_offset`:
`data_offset = header_to_bytes().len() as u8`. -/
def TcpPacket.recalculate_data_offset (p : TcpPacket) : TcpPacket :=
  { p with data_offset := p.header_to_bytes.length % 256 }

/-- tcp.rs `TcpPacket::recalculate_checksum`: build the IPv4 pseudo-header
(source and destination octets, a zero byte, protocol 6, the big-endian
encoded-packet length), append the encoded packet, zero positions 28 and 29
(the checksum bytes, 12 pseudo-header bytes + offset 16), and store the
checksum of the result. -/
def TcpPacket.recalculate_checksum (p : TcpPacket)
    (source_ip destination_ip : Ipv4Addr) : TcpPacket :=
  let packet := p.to_bytes
  let pseudo_header :=
    source_ip.octets ++ destination_ip.octets ++ [0, 6] ++
    u16be (packet.length % 65536) ++ packet
  let pseudo_header := (pseudo_header.set 28 0).set 29 0
  { p with checksum := util.checksum pseudo_header }

/-- tcp.rs `TcpPacket::recalculate_all`: recalculate every option's length,
then the data offset, then the checksum, in that order. -/
def TcpPacket.recalculate_all (p : TcpPacket)
    (source_ip destination_ip : Ipv4Addr) : TcpPacket :=
  let p := { p with options := p.options.map TcpOption.recalculate_length }
  let p := p.recalculate_data_offset
  p.recalculate_checksum source_ip destination_ip

/-! ## ipv4.rs -/

/-- ipv4.rs `Ipv4OptionClass`. -/
inductive Ipv4OptionClass : Type
  | Control
  | Debug
  | Reserved : Bool → Ipv4OptionClass
deriving DecidableEq, Repr

/-- ipv4.rs `Ipv4OptionClass::from_bits`: 0, 1, 2, 3 map to Control,
Reserved(false), Debug, Reserved(true); anything else panics. -/
def Ipv4OptionClass.from_bits (bits : Nat) : Except Err Ipv4OptionClass :=
  match bits with
  | 0 => .ok .Control
  | 1 => .ok (.Reserved false)
  | 2 => .ok .Debug
  | 3 => .ok (.Reserved true)
  | _ => .error .panicked

/-- ipv4.rs `Ipv4OptionClass::to_bits`. -/
def Ipv4OptionClass.to_bits : Ipv4OptionClass → Nat
  | .Control => 0
  | .Debug => 2
  | .Reserved v => if v then 3 else 1

/-- ipv4.rs `Ipv4Option` (the Rust field `class` is `cls` here, `class`
being a Lean keyword). -/
structure Ipv4Option : Type where
  copy : Bool
  cls : Ipv4OptionClass
  number : Nat
  length : Nat
  data : List Nat
deriving DecidableEq, Repr

/-- ipv4.rs `Ipv4Option::from_bytes`: copy flag is bit 7 of byte 0, class is
bits 6–5, number is bits 4–0, the length field is byte 1, data is the rest. -/
def Ipv4Option.from_bytes (bytes : List Nat) : Except Err Ipv4Option :=
  (idx bytes 0).bind fun b0 =>
  (Ipv4OptionClass.from_bits ((b0 &&& 0x60) >>> 5)).bind fun cls =>
  (idx bytes 1).bind fun b1 =>
  .ok { copy := (b0 &&& 0x80) != 0, cls := cls, number := b0 &&& 31,
        length := b1, data := bytes.drop 2 }

/-- ipv4.rs `Ipv4Option::to_bytes`: the packed first byte, the length field
byte, then the data, with no padding. -/
def Ipv4Option.to_bytes (o : Ipv4Option) : List Nat :=
  (o.copy.toNat <<< 7 ||| o.cls.to_bits <<< 5 ||| (o.number &&& 0x1F)) ::
  o.length :: o.data

/-- ipv4.rs `Ipv4Option::recalculate_length`:
`length = data.len() as u8` (note: the two flag/length bytes are NOT added). -/
def Ipv4Option.recalculate_length (o : Ipv4Option) : Ipv4Option :=
  { o with length := o.data.length % 256 }

/-- ipv4.rs `Ipv4Packet`. -/
structure Ipv4Packet : Type where
  header_len : Nat
  tos : Nat
  total_len : Nat
  id : Nat
  dont_fragment : Bool
  more_fragments : Bool
  fragment_offset : Nat
  ttl : Nat
  protocol : Nat
  checksum : Nat
  source : Ipv4Addr
  destination : Ipv4Addr
  options : List Ipv4Option
  payload : List Nat
deriving DecidableEq, Repr

/-- ipv4.rs `Ipv4Packet::new`. -/
def Ipv4Packet.new : Ipv4Packet :=
  { header_len := 0, tos := 0, total_len := 0, id := 0,
    dont_fragment := false, more_fragments := false, fragment_offset := 0,
    ttl := 0, protocol := 0, checksum := 0,
    source := ⟨0⟩, destination := ⟨0⟩, options := [], payload := [] }

/-- ipv4.rs: the option-parsing loop of `Ipv4Packet::from_bytes`
(`while i < header_len`): byte 0 ends the options, byte 1 is a no-op, any
other byte starts an option of `2 + bytes[i + 1]` total bytes.  The fuel
dominates the iteration count because each iteration advances the cursor
inside `[20, header_len)` or stops. -/
def ipv4OptLoop (bytes : List Nat) (header_len : Nat) :
    Nat → Nat → Except Err (List Ipv4Option)
  | 0, _ => .error .loopFuel
  | fuel + 1, i =>
    if i < header_len then
      (idx bytes i).bind fun bi =>
      if bi = 0 then .ok []
      else if bi = 1 then ipv4OptLoop bytes header_len fuel (i + 1)
      else
        (idx bytes (i + 1)).bind fun len =>
        (subSlice bytes i (i + 2 + len)).bind fun sl =>
        (Ipv4Option.from_bytes sl).bind fun o =>
        (ipv4OptLoop bytes header_len fuel (i + len + 2)).bind fun rest =>
        .ok (o :: rest)
    else .ok []

/-- ipv4.rs `Ipv4Packet::from_bytes`: panics unless the top nibble of byte 0
is 4 (this version check reads byte 0 before any length check), panics when
fewer than 20 bytes; `header_len` is the low nibble of byte 0 times 4, the
fragment-offset field is multiplied by 8, options are parsed between byte 20
and `header_len`, and the payload starts at `header_len`. -/
def Ipv4Packet.from_bytes (bytes : List Nat) : Except Err Ipv4Packet :=
  (idx bytes 0).bind fun b0 =>
  if b0 >>> 4 ≠ 4 then .error .panicked
  else if bytes.length < 20 then .error .panicked
  else
    (idx bytes 1).bind fun b1 =>
    (idx bytes 2).bind fun b2 =>
    (idx bytes 3).bind fun b3 =>
    (idx bytes 4).bind fun b4 =>
    (idx bytes 5).bind fun b5 =>
    (idx bytes 6).bind fun b6 =>
    (idx bytes 7).bind fun b7 =>
    (idx bytes 8).bind fun b8 =>
    (idx bytes 9).bind fun b9 =>
    (idx bytes 10).bind fun b10 =>
    (idx bytes 11).bind fun b11 =>
    (idx bytes 12).bind fun b12 =>
    (idx bytes 13).bind fun b13 =>
    (idx bytes 14).bind fun b14 =>
    (idx bytes 15).bind fun b15 =>
    (idx bytes 16).bind fun b16 =>
    (idx bytes 17).bind fun b17 =>
    (idx bytes 18).bind fun b18 =>
    (idx bytes 19).bind fun b19 =>
    let header_len := (b0 &&& 0xF) * 4
    (if header_len > 20 then ipv4OptLoop bytes header_len (header_len + 1) 20
     else .ok []).bind fun options =>
    (sliceFrom bytes header_len).bind fun payload =>
    .ok { header_len := header_len, tos := b1,
          total_len := b2 * 256 + b3, id := b4 * 256 + b5,
          dont_fragment := (b6 &&& 64) != 0,
          more_fragments := (b6 &&& 32) != 0,
          fragment_offset := ((b6 &&& 31) * 256 + b7) * 8,
          ttl := b8, protocol := b9, checksum := b10 * 256 + b11,
          source := Ipv4Addr.new b12 b13 b14 b15,
          destination := Ipv4Addr.new b16 b17 b18 b19,
          options := options, payload := payload }

/-- ipv4.rs `Ipv4Packet::header_to_bytes`, write for write: single-byte
stores become `List.set`, the ranged `copy_from_slice` stores are checked
(`copyFromSlice`).  The destination address is written with
`packet[16..19].copy_from_slice(&self.destination.octets())` in the source —
a three-byte destination range for a four-byte source — so that
`copy_from_slice` panics; the remaining option-append and padding code is
translated anyway, after that bind. -/
def Ipv4Packet.header_to_bytes (p : Ipv4Packet) : Except Err (List Nat) :=
  let packet := List.replicate 20 0
  let packet := packet.set 0 ((4 <<< 4) ||| ((p.header_len / 4) &&& 0xF))
  let packet := packet.set 1 p.tos
  (copyFromSlice packet 2 4 (u16be p.total_len)).bind fun packet =>
  (copyFromSlice packet 4 6 (u16be p.id)).bind fun packet =>
  let packet := packet.set 6
    (p.dont_fragment.toNat <<< 6 ||| p.more_fragments.toNat <<< 5)
  let fragment_offset := u16be (p.fragment_offset / 8)
  let packet := packet.set 6 (packet.getD 6 0 ||| fragment_offset.getD 0 0)
  let packet := packet.set 7 (fragment_offset.getD 1 0)
  let packet := packet.set 8 p.ttl
  let packet := packet.set 9 p.protocol
  (copyFromSlice packet 10 12 (u16be p.checksum)).bind fun packet =>
  (copyFromSlice packet 12 16 p.source.octets).bind fun packet =>
  (copyFromSlice packet 16 19 p.destination.octets).bind fun packet =>
  let withOpts := packet ++ (p.options.map Ipv4Option.to_bytes).flatten
  let padding := withOpts.length % 4
  .ok (if padding ≠ 0 then withOpts ++ List.replicate (4 - padding - 1) 1 ++ [0]
       else withOpts)

/-- ipv4.rs `Ipv4Packet::to_bytes`: header then payload. -/
def Ipv4Packet.to_bytes (p : Ipv4Packet) : Except Err (List Nat) :=
  (p.header_to_bytes).map (fun header => header ++ p.payload)

/-- ipv4.rs `Ipv4Packet::recalculate_lengths`:
`header_len = header_to_bytes().len() as u8`,
`total_len = header as u16 + payload.len() as u16`. -/
def Ipv4Packet.recalculate_lengths (p : Ipv4Packet) : Except Err Ipv4Packet :=
  (p.header_to_bytes).bind fun header =>
  .ok { p with header_len := header.length % 256,
               total_len := (header.length % 65536 + p.payload.length % 65536) % 65536 }

/-- ipv4.rs `Ipv4Packet::recalculate_checksum`:
`checksum = checksum(header_to_bytes())` — the current checksum field is
left inside the summed header, it is NOT zeroed first. -/
def Ipv4Packet.recalculate_checksum (p : Ipv4Packet) : Except Err Ipv4Packet :=
  (p.header_to_bytes).bind fun header =>
  .ok { p with checksum := util.checksum header }

/-- ipv4.rs `Ipv4NextLevelPacket`: note there is no variant for an
unrecognised protocol. -/
inductive Ipv4NextLevelPacket : Type
  | Tcp : TcpPacket → Ipv4NextLevelPacket
  | Udp : UdpPacket → Ipv4NextLevelPacket
deriving DecidableEq, Repr

/-- ipv4.rs `Ipv4Packet::get_next_level_packet`: protocol 6 decodes the
payload as TCP, 17 as UDP, and every other value hits `unimplemented!`. -/
def Ipv4Packet.get_next_level_packet (p : Ipv4Packet) :
    Except Err Ipv4NextLevelPacket :=
  match p.protocol with
  | 6 => (TcpPacket.from_bytes p.payload).map .Tcp
  | 17 => (UdpPacket.from_bytes p.payload).map .Udp
  | _ => .error .unimplemented

/-! ## ipv6.rs -/

/-- Wrapping `usize` subtraction (release-mode Rust semantics). -/
def usizeSub (a b : Nat) : Nat :=
  (a + 18446744073709551616 - b % 18446744073709551616) % 18446744073709551616

/-- ipv6.rs `Ipv6Option`. -/
structure Ipv6Option : Type where
  kind : Nat
  data : List Nat
deriving DecidableEq, Repr

/-- ipv6.rs `Ipv6Option::to_bytes`: kind 0 is the single-byte Pad1,
otherwise kind, data length and data. -/
def Ipv6Option.to_bytes (o : Ipv6Option) : List Nat :=
  if o.kind = 0 then [0]
  else o.kind :: (o.data.length % 256) :: o.data

/-- ipv6.rs `Ipv6ExtensionHeader`. -/
inductive Ipv6ExtensionHeader : Type
  | HopByHopOptions : Nat → List Ipv6Option → Ipv6ExtensionHeader
  | Routing : Nat → List Nat → Ipv6ExtensionHeader
  | Fragment : Nat → List Nat → Ipv6ExtensionHeader
  | DestinationOptions : Nat → List Ipv6Option → Ipv6ExtensionHeader
  | Mobility : Nat → List Nat → Ipv6ExtensionHeader
deriving DecidableEq, Repr

/-- Rust `vec![0u8; n]`: the allocation panics with a capacity overflow
when the requested count exceeds `isize::MAX` — which happens exactly when
a wrapped `usize` subtraction produced the count. -/
def vecZeros (n : Nat) : Except Err (List Nat) :=
  if n ≤ 9223372036854775807 then .ok (List.replicate n 0) else .error .panicked

/-- ipv6.rs `Ipv6ExtensionHeader::to_bytes`.  The length byte
`(body.len() + 2) / 8 - 1` and the padding count `8 - padding - 2` are
`usize` subtractions that underflow for short bodies; they are modelled
with release-mode wrapping (`usizeSub`).  A wrapped count that only flows
into a pushed byte (`as u8`) wraps silently, but a wrapped count handed to
`vec![0u8; ...]` makes the allocation panic (`vecZeros`), so `to_bytes`
is fallible: the `DestinationOptions` arm panics whenever its body is
already 8-aligned (`padding = 8 - header.len() % 8` is then 8 and the
zero-vector count wraps to 2^64 - 2).  Note the asymmetry translated from
the source: `HopByHopOptions` computes `padding = header.len() % 8` while
`DestinationOptions` computes `padding = 8 - header.len() % 8`, each then
testing `padding != 0` and `8 - padding == 1`; `Routing` never pads;
`Fragment` is the bare next-header byte plus the stored payload;
`Mobility` always appends `8 - header.len() % 8` zero bytes. -/
def Ipv6ExtensionHeader.to_bytes : Ipv6ExtensionHeader → Except Err (List Nat)
  | .HopByHopOptions next_header options =>
      let option_bytes := (options.map Ipv6Option.to_bytes).flatten
      let header := next_header ::
        [usizeSub ((option_bytes.length + 2) / 8) 1 % 256] ++ option_bytes
      let padding := header.length % 8
      if padding ≠ 0 then
        if 8 - padding = 1 then .ok (header ++ [0])
        else (vecZeros (usizeSub (8 - padding) 2)).map fun zeros =>
          header ++ [1, usizeSub (8 - padding) 2 % 256] ++ zeros
      else .ok header
  | .Routing next_header payload =>
      .ok (next_header :: [usizeSub ((payload.length + 2) / 8) 1 % 256] ++ payload)
  | .Fragment next_header payload =>
      .ok (next_header :: payload)
  | .DestinationOptions next_header options =>
      let option_bytes := (options.map Ipv6Option.to_bytes).flatten
      let header := next_header ::
        [usizeSub ((option_bytes.length + 2) / 8) 1 % 256] ++ option_bytes
      let padding := 8 - header.length % 8
      if padding ≠ 0 then
        if 8 - padding = 1 then .ok (header ++ [0])
        else (vecZeros (usizeSub (8 - padding) 2)).map fun zeros =>
          header ++ [1, usizeSub (8 - padding) 2 % 256] ++ zeros
      else .ok header
  | .Mobility next_header payload =>
      let header := next_header ::
        [usizeSub ((payload.length + 2) / 8) 1 % 256] ++ payload
      (vecZeros (8 - header.length % 8)).map fun zeros => header ++ zeros

/-- ipv6.rs `Ipv6ExtensionHeader::get_type`. -/
def Ipv6ExtensionHeader.get_type : Ipv6ExtensionHeader → Nat
  | .HopByHopOptions _ _ => 0
  | .Routing _ _ => 43
  | .Fragment _ _ => 44
  | .DestinationOptions _ _ => 60
  | .Mobility _ _ => 135

/-- ipv6.rs `Ipv6ExtensionHeader::get_next_header_type`. -/
def Ipv6ExtensionHeader.get_next_header_type : Ipv6ExtensionHeader → Nat
  | .HopByHopOptions next_header _ => next_header
  | .Routing next_header _ => next_header
  | .Fragment next_header _ => next_header
  | .DestinationOptions next_header _ => next_header
  | .Mobility next_header _ => next_header

/-- ipv6.rs `Ipv6NextLevelPacket`. -/
inductive Ipv6NextLevelPacket : Type
  | Tcp : TcpPacket → Ipv6NextLevelPacket
  | Udp : UdpPacket → Ipv6NextLevelPacket
  | Unimplemented : List Nat → Ipv6NextLevelPacket
deriving DecidableEq, Repr

/-- ipv6.rs `Ipv6Packet`. -/
structure Ipv6Packet : Type where
  dscp : util.DscpType
  ecn : util.EcnType
  flow_label : Nat
  payload_len : Nat
  next_header : Nat
  hop_limit : Nat
  source : Ipv6Addr
  destination : Ipv6Addr
  extension_headers : List Ipv6ExtensionHeader
  payload : List Nat
deriving DecidableEq, Repr

/-- ipv6.rs `Ipv6Packet::new`. -/
def Ipv6Packet.new : Ipv6Packet :=
  { dscp := .CS0, ecn := .NotECT, flow_label := 0, payload_len := 0,
    next_header := 0, hop_limit := 0, source := ⟨0⟩, destination := ⟨0⟩,
    extension_headers := [], payload := [] }

/-- ipv6.rs: the accumulation loop of `Ipv6Packet::recalculate_length`
(`for header in extension_headers { length += header.to_bytes().len() as
u16 }`, with wrapping `u16` addition): a panic inside any `to_bytes` call
aborts the whole recalculation. -/
def ipv6LenFold : List Ipv6ExtensionHeader → Nat → Except Err Nat
  | [], length => .ok length
  | h :: rest, length =>
      (h.to_bytes).bind fun bytes =>
        ipv6LenFold rest ((length + bytes.length % 65536) % 65536)

/-- ipv6.rs `Ipv6Packet::recalculate_length`:
`payload_len = payload.len() as u16` plus, with wrapping `u16` addition,
each extension header's `to_bytes().len() as u16`; it panics when any
extension header's `to_bytes` does (a `DestinationOptions` header with an
8-aligned body). -/
def Ipv6Packet.recalculate_length (p : Ipv6Packet) : Except Err Ipv6Packet :=
  (ipv6LenFold p.extension_headers (p.payload.length % 65536)).map
    fun length => { p with payload_len := length }

/-- ipv6.rs `Ipv6Packet::recalculate_next_header`:
`next_header = extension_headers[0].get_type()` — a panicking index when
there are no extension headers. -/
def Ipv6Packet.recalculate_next_header (p : Ipv6Packet) :
    Except Err Ipv6Packet :=
  match p.extension_headers with
  | [] => .error .indexOutOfBounds
  | h :: _ => .ok { p with next_header := h.get_type }

/-- ipv6.rs `Ipv6Packet::recalculate_all`: length then next header. -/
def Ipv6Packet.recalculate_all (p : Ipv6Packet) : Except Err Ipv6Packet :=
  p.recalculate_length.bind Ipv6Packet.recalculate_next_header

/-- ipv6.rs, inside `Ipv6Packet::get_next_level_packet`: the dispatched
protocol number — the packet's own `next_header` when there are no
extension headers, otherwise the last extension header's embedded
next-header byte. -/
def Ipv6Packet.next_level_protocol (p : Ipv6Packet) : Nat :=
  match p.extension_headers.getLast? with
  | none => p.next_header
  | some h => h.get_next_header_type

/-- ipv6.rs `Ipv6Packet::get_next_level_packet`: protocol 6 decodes the
payload as TCP, 17 as UDP, and anything else is the `Unimplemented` variant
carrying the raw payload bytes. -/
def Ipv6Packet.get_next_level_packet (p : Ipv6Packet) :
    Except Err Ipv6NextLevelPacket :=
  match p.next_level_protocol with
  | 6 => (TcpPacket.from_bytes p.payload).map .Tcp
  | 17 => (UdpPacket.from_bytes p.payload).map .Udp
  | _ => .ok (.Unimplemented p.payload)

/-- ipv6.rs: the option-parsing loop shared verbatim by the Hop-by-Hop and
Destination-Options arms of `Ipv6Packet::from_bytes` (`while j < length`):
byte 0 is a Pad1 option, anything else is kind, length and data.  The fuel
dominates the iteration count because each iteration advances `j` by at
least one inside `[0, length)`. -/
def ipv6OptLoop (data : List Nat) (length : Nat) :
    Nat → Nat → Except Err (List Ipv6Option)
  | 0, _ => .error .loopFuel
  | fuel + 1, j =>
    if j < length then
      (idx data j).bind fun dj =>
      if dj = 0 then
        (ipv6OptLoop data length fuel (j + 1)).bind fun rest =>
        .ok ({ kind := 0, data := [] } :: rest)
      else
        (idx data (j + 1)).bind fun dlen =>
        (subSlice data (j + 2) (j + 2 + dlen)).bind fun d =>
        (ipv6OptLoop data length fuel (j + 2 + dlen)).bind fun rest =>
        .ok ({ kind := dj, data := d } :: rest)
    else .ok []

/-- ipv6.rs: the extension-header chain loop of `Ipv6Packet::from_bytes`
(`loop { match next_header { ... } }`): type codes 0, 43, 44, 60, 135
consume a block, update the running next-header byte from the block's first
byte and advance the cursor (by `(bytes[i+1] + 1) * 8` bytes, except
Fragment's fixed 8); any other code ends the chain and the rest of the
buffer is the payload.  The fuel dominates the iteration count because each
iteration advances the cursor by at least 8 and must successfully read
inside the buffer to continue. -/
def ipv6ExtLoop (bytes : List Nat) :
    Nat → Nat → Nat → Except Err (List Ipv6ExtensionHeader × List Nat)
  | 0, _, _ => .error .loopFuel
  | fuel + 1, next_header, i =>
    match next_header with
    | 0 =>
      (idx bytes (i + 1)).bind fun b1 =>
      let length := (b1 + 1) * 8 - 2
      (subSlice bytes (i + 2) (i + 2 + length)).bind fun data =>
      (ipv6OptLoop data length (length + 1) 0).bind fun options =>
      (idx bytes i).bind fun b0 =>
      (ipv6ExtLoop bytes fuel b0 (i + length + 2)).bind fun res =>
      .ok (.HopByHopOptions b0 options :: res.fst, res.snd)
    | 43 =>
      (idx bytes (i + 1)).bind fun b1 =>
      let length := (b1 + 1) * 8
      (subSlice bytes (i + 2) (i + length)).bind fun payload =>
      (idx bytes i).bind fun b0 =>
      (ipv6ExtLoop bytes fuel b0 (i + length)).bind fun res =>
      .ok (.Routing b0 payload :: res.fst, res.snd)
    | 44 =>
      (subSlice bytes (i + 1) (i + 8)).bind fun payload =>
      (idx bytes i).bind fun b0 =>
      (ipv6ExtLoop bytes fuel b0 (i + 8)).bind fun res =>
      .ok (.Fragment b0 payload :: res.fst, res.snd)
    | 60 =>
      (idx bytes (i + 1)).bind fun b1 =>
      let length := (b1 + 1) * 8 - 2
      (subSlice bytes (i + 2) (i + 2 + length)).bind fun data =>
      (ipv6OptLoop data length (length + 1) 0).bind fun options =>
      (idx bytes i).bind fun b0 =>
      (ipv6ExtLoop bytes fuel b0 (i + length + 2)).bind fun res =>
      .ok (.DestinationOptions b0 options :: res.fst, res.snd)
    | 135 =>
      (idx bytes (i + 1)).bind fun b1 =>
      let length := (b1 + 1) * 8
      (subSlice bytes (i + 2) (i + length)).bind fun payload =>
      (idx bytes i).bind fun b0 =>
      (ipv6ExtLoop bytes fuel b0 (i + length)).bind fun res =>
      .ok (.Mobility b0 payload :: res.fst, res.snd)
    | _ =>
      (sliceFrom bytes i).bind fun payload =>
      .ok ([], payload)

/-- ipv6.rs `Ipv6Packet::from_bytes` (impl Packet): panics unless the top
nibble of byte 0 is 6 (reading byte 0 before any length check), panics when
fewer than 40 bytes; DSCP bits are the low nibble of byte 0 and the top two
bits of byte 1 (panicking on values outside the DSCP set), ECN is bits 5–4
of byte 1, the flow label is the low nibble of byte 1 and bytes 2–3;
addresses are bytes 8–23 and 24–39; the extension-header chain starts at
byte 40 seeded with `next_header` from byte 6. -/
def Ipv6Packet.from_bytes (bytes : List Nat) : Except Err Ipv6Packet :=
  (idx bytes 0).bind fun b0 =>
  if b0 >>> 4 ≠ 6 then .error .panicked
  else if bytes.length < 40 then .error .panicked
  else
    (idx bytes 1).bind fun b1 =>
    (util.DscpType.from_bits (((b0 &&& 0xF) <<< 2) ||| ((b1 &&& 192) >>> 6))).bind fun dscp =>
    (util.EcnType.from_bits ((b1 &&& 48) >>> 4)).bind fun ecn =>
    (idx bytes 2).bind fun b2 =>
    (idx bytes 3).bind fun b3 =>
    (idx bytes 4).bind fun b4 =>
    (idx bytes 5).bind fun b5 =>
    (idx bytes 6).bind fun b6 =>
    (idx bytes 7).bind fun b7 =>
    (subSlice bytes 8 24).bind fun src =>
    (subSlice bytes 24 40).bind fun dst =>
    (ipv6ExtLoop bytes (bytes.length + 1) b6 40).bind fun res =>
    .ok { dscp := dscp, ecn := ecn,
          flow_label := (b1 &&& 0xF) * 65536 + b2 * 256 + b3,
          payload_len := b4 * 256 + b5, next_header := b6, hop_limit := b7,
          source := ⟨beNat src⟩, destination := ⟨beNat dst⟩,
          extension_headers := res.fst, payload := res.snd }

/-! ## arp.rs (without the advanced-arp feature: fixed 6/4-byte addresses) -/

/-- arp.rs `ArpOperation` (fixed mode). -/
inductive ArpOperation : Type
  | Request | Reply | RarpRequest | RarpReply
deriving DecidableEq, Repr

/-- arp.rs `ArpOperation::from_value` (fixed mode): panics on any value
other than 1–4. -/
def ArpOperation.from_value (value : Nat) : Except Err ArpOperation :=
  match value with
  | 1 => .ok .Request
  | 2 => .ok .Reply
  | 3 => .ok .RarpRequest
  | 4 => .ok .RarpReply
  | _ => .error .panicked

/-- arp.rs `ArpOperation::to_value` (fixed mode). -/
def ArpOperation.to_value : ArpOperation → Nat
  | .Request => 1
  | .Reply => 2
  | .RarpRequest => 3
  | .RarpReply => 4

/-- arp.rs `ArpPacket` (fixed mode). -/
structure ArpPacket : Type where
  operation : ArpOperation
  sender_mac : util.MacAddress
  sender_ip : Ipv4Addr
  target_mac : util.MacAddress
  target_ip : Ipv4Addr
deriving DecidableEq, Repr

/-- arp.rs `ArpPacket::new` (fixed mode). -/
def ArpPacket.new : ArpPacket :=
  { operation := .Request, sender_mac := util.MacAddress.new,
    sender_ip := Ipv4Addr.new 0 0 0 0, target_mac := util.MacAddress.new,
    target_ip := Ipv4Addr.new 0 0 0 0 }

/-- arp.rs `ArpPacket::from_bytes` (fixed mode): the operation is read from
bytes 6–7 first (panicking on unknown values), then hardware type 1,
protocol type 0x0800, hardware length 6 and protocol length 4 are enforced
(each failure an explicit panic), and the four address fields are read from
bytes 8–13, 14–17, 18–23 and 24–27 with unchecked indexing. -/
def ArpPacket.from_bytes (bytes : List Nat) : Except Err ArpPacket :=
  (idx bytes 6).bind fun b6 =>
  (idx bytes 7).bind fun b7 =>
  (ArpOperation.from_value (b6 * 256 + b7)).bind fun operation =>
  (idx bytes 0).bind fun b0 =>
  (idx bytes 1).bind fun b1 =>
  if b0 * 256 + b1 ≠ 1 then .error .panicked
  else
    (idx bytes 2).bind fun b2 =>
    (idx bytes 3).bind fun b3 =>
    if b2 * 256 + b3 ≠ 0x0800 then .error .panicked
    else
      (idx bytes 4).bind fun b4 =>
      if b4 ≠ 6 then .error .panicked
      else
        (idx bytes 5).bind fun b5 =>
        if b5 ≠ 4 then .error .panicked
        else
          (subSlice bytes 8 14).bind fun sm =>
          (util.MacAddress.from_slice sm).bind fun sender_mac =>
          (idx bytes 14).bind fun b14 =>
          (idx bytes 15).bind fun b15 =>
          (idx bytes 16).bind fun b16 =>
          (idx bytes 17).bind fun b17 =>
          (subSlice bytes 18 24).bind fun tm =>
          (util.MacAddress.from_slice tm).bind fun target_mac =>
          (idx bytes 24).bind fun b24 =>
          (idx bytes 25).bind fun b25 =>
          (idx bytes 26).bind fun b26 =>
          (idx bytes 27).bind fun b27 =>
          .ok { operation := operation, sender_mac := sender_mac,
                sender_ip := Ipv4Addr.new b14 b15 b16 b17,
                target_mac := target_mac,
                target_ip := Ipv4Addr.new b24 b25 b26 b27 }

/-! ## Decidability of `Except` equality, for concrete evaluations -/

deriving instance DecidableEq for Except

/-! ## Helper lemmas -/

theorem foldCarries_le (n : Nat) : util.foldCarries n ≤ 65535 := by
  induction n using util.foldCarries.induct with
  | case1 n h ih => rw [util.foldCarries, dif_pos h]; exact ih
  | case2 n h => rw [util.foldCarries, dif_neg h]; omega

theorem sum16_eq_foldl (l : List Nat) (s : Nat) (hl : l.length % 2 = 0) :
    util.sum16 l s =
      (checksumSpec.toWords l).foldl (fun a w => (a + w) % 4294967296) s := by
  induction l, s using util.sum16.induct with
  | case1 b0 b1 rest s ih =>
    have hr : rest.length % 2 = 0 := by simp at hl; omega
    simp [util.sum16, checksumSpec.toWords, ih hr]
  | case2 l s h =>
    cases l with
    | nil => simp [util.sum16, checksumSpec.toWords]
    | cons b t =>
      cases t with
      | nil => simp at hl
      | cons b1 r => exact absurd rfl (h b b1 r)

theorem ipv4_header_to_bytes_err (p : Ipv4Packet) :
    p.header_to_bytes = .error .sliceLenMismatch := by
  unfold Ipv4Packet.header_to_bytes
  simp [copyFromSlice, u16be, u32be, Ipv4Addr.octets, Except.bind]

/-! ## Claim theorems -/

/-- Claim C3: `checksum` equals the RFC 1071 reference definition worded by
the specification — pad one zero byte when the length is odd, sum the
big-endian 16-bit words into a 32-bit accumulator, fold carries until the
sum fits 16 bits, and complement the low 16 bits.  Both sides are total
Lean functions of the byte list alone, so purity and determinism hold by
construction. -/
theorem checksum_matches_rfc1071 (bytes : List Nat) :
    util.checksum bytes = checksumSpec bytes := by
  unfold util.checksum checksumSpec
  dsimp only
  have hpad : (if bytes.length % 2 == 1 then bytes ++ [0] else bytes).length % 2 = 0 := by
    by_cases h : bytes.length % 2 = 1 <;> simp [h] <;> omega
  rw [sum16_eq_foldl _ _ hpad]
  have hle := foldCarries_le ((checksumSpec.toWords
      (if bytes.length % 2 == 1 then bytes ++ [0] else bytes)).foldl
      (fun a w => (a + w) % 4294967296) 0)
  omega

/-- Claim C9: contrary to the claim, a 14-byte buffer does NOT decode: the
source checks `bytes.len() < 15` (message: len must be at least 15), so the
all-zero 14-byte frame — a valid Ethernet header with an empty payload —
is rejected with a panic, not decoded and not a typed LengthError; a
15-byte buffer is the actual minimum and decodes into bytes 0–5, 6–11, the
big-endian protocol from 12–13 and the remainder as payload. -/
theorem ethernet_14_byte_buffer_rejected :
    EthernetPacket.from_bytes (List.replicate 14 0) = .error .panicked ∧
    EthernetPacket.from_bytes (List.replicate 15 0) =
      .ok { destination := ⟨List.replicate 6 0⟩, source := ⟨List.replicate 6 0⟩,
            protocol := 0, payload := [0] } := by
  constructor <;> decide

/-- Claim C1: the encode-after-decode round trip fails for IPv4 on every
well-formed buffer, because `Ipv4Packet::header_to_bytes` writes the
four destination-address octets into the three-byte range
`packet[16..19]`, so `copy_from_slice` panics unconditionally.  The input
here is the spec's own scenario header (ttl 64, protocol 6, 10.0.0.1 →
10.0.0.2, header and total length 20) carrying its correct RFC 1071
checksum 0x66E2, so every derived field is consistent; it decodes
successfully, and re-encoding it panics instead of returning the bytes. -/
theorem ipv4_decode_then_encode_panics :
    isOkE (Ipv4Packet.from_bytes
      [0x45, 0, 0, 20, 0, 0, 0, 0, 64, 6, 0x66, 0xE2, 10, 0, 0, 1, 10, 0, 0, 2]) = true ∧
    (Ipv4Packet.from_bytes
      [0x45, 0, 0, 20, 0, 0, 0, 0, 64, 6, 0x66, 0xE2, 10, 0, 0, 1, 10, 0, 0, 2]).bind
      Ipv4Packet.to_bytes = .error .sliceLenMismatch := by
  constructor <;> decide

/-- Claim C4: `Ipv4Packet::recalculate_checksum` never stores a checksum at
all — it calls `header_to_bytes`, which panics on every packet (the
destination-address slice bug above); and in the source its one line is
`checksum = checksum(header_to_bytes())`, which, unlike the TCP and UDP
recalculations, does not zero the checksum field before summing. -/
theorem ipv4_recalculate_checksum_panics (p : Ipv4Packet) :
    p.recalculate_checksum = .error .sliceLenMismatch := by
  unfold Ipv4Packet.recalculate_checksum
  rw [ipv4_header_to_bytes_err]
  rfl

/-- Claim C8: `Ipv4Option::recalculate_length` sets the length field to
`data.len()` alone — for a 3-byte data field it stores 3, not the claimed
`2 + data.len() = 5` — although the field is documented as the option's
total length and `to_bytes` emits `2 + data.len()` bytes;
`TcpOption::recalculate_length` does add 2 (shown here in its exact
wrapping-`u8` form, which is `2 + data.len()` for all data shorter than
254 bytes). -/
theorem ipv4_option_recalculate_length_misses_two :
    (Ipv4Option.recalculate_length
      { copy := false, cls := .Control, number := 0, length := 9,
        data := [1, 2, 3] }).length = 3 ∧
    (∀ o : TcpOption,
      o.recalculate_length.length = (o.data.length % 256 + 2) % 256) := by
  exact ⟨by decide, fun o => rfl⟩

/-- Claim C6 (counterexample): `Ipv6ExtensionHeader::to_bytes` is not always
8-byte aligned and `Fragment` is not always 8 bytes: a `Fragment` with an
empty stored payload encodes to the single next-header byte, a `Routing`
header with an empty payload encodes to 2 bytes (its length byte is the
wrapped `(0 + 2) / 8 - 1` cast to `u8`, 255), a `DestinationOptions`
header whose body is already 8-aligned (here one option of kind 1 with 4
data bytes) panics on the capacity-overflowed zero-vector allocation, and
the IPv4 side of the claim cannot hold because
`Ipv4Packet::header_to_bytes` panics on every packet. -/
theorem ipv6_ext_alignment_counterexample :
    Ipv6ExtensionHeader.to_bytes (.Fragment 0 []) = .ok [0] ∧
    Ipv6ExtensionHeader.to_bytes (.Routing 0 []) = .ok [0, 255] ∧
    Ipv6ExtensionHeader.to_bytes
      (.DestinationOptions 0 [{ kind := 1, data := [0, 0, 0, 0] }])
      = .error .panicked ∧
    Ipv4Packet.new.header_to_bytes = .error .sliceLenMismatch := by
  refine ⟨by decide, by decide, by decide, ipv4_header_to_bytes_err _⟩

set_option maxRecDepth 8192 in
/-- Claim C10: `TcpFlags::from_bits` and `TcpFlags::to_bits` are mutually
inverse: packing after unpacking returns the original nonce-sum flag and
byte (for every byte value), and unpacking after packing reproduces every
flag record. -/
theorem tcp_flags_bits_roundtrip :
    (∀ ns : Bool, ∀ b : Nat, b < 256 →
      TcpFlags.to_bits (TcpFlags.from_bits ns b) = (ns, b)) ∧
    (∀ f : TcpFlags,
      TcpFlags.from_bits (TcpFlags.to_bits f).fst (TcpFlags.to_bits f).snd = f) := by
  constructor
  · intro ns
    cases ns <;> decide
  · rintro ⟨ns, c, e, u, a, p, r, s, f⟩
    cases ns <;> cases c <;> cases e <;> cases u <;> cases a <;> cases p <;>
      cases r <;> cases s <;> cases f <;> rfl

/-- Witness for C10 at a concrete flag byte and flag record. -/
theorem tcp_flags_bits_roundtrip_witness :
    TcpFlags.to_bits (TcpFlags.from_bits true 181) = (true, 181) ∧
    TcpFlags.from_bits
      (TcpFlags.to_bits TcpFlags.new).fst (TcpFlags.to_bits TcpFlags.new).snd =
      TcpFlags.new :=
  ⟨tcp_flags_bits_roundtrip.1 true 181 (by decide),
   tcp_flags_bits_roundtrip.2 TcpFlags.new⟩

theorem isOkE_ite_elim {α : Type} {c : Prop} [Decidable c] {e : Err}
    {x : Except Err α} (h : isOkE (if c then Except.error e else x) = true) :
    ¬c ∧ isOkE x = true := by
  by_cases hc : c
  · rw [if_pos hc] at h; exact absurd h (by simp [isOkE])
  · rw [if_neg hc] at h; exact ⟨hc, h⟩

theorem if_pad_factor {c : Prop} [Decidable c] (A R Z : List Nat) :
    (if c then A ++ R ++ Z else A) = A ++ (if c then R ++ Z else []) := by
  split <;> simp

theorem pad4_len (withOpts : List Nat) :
    (if withOpts.length % 4 ≠ 0 then
       withOpts ++ List.replicate (4 - withOpts.length % 4 - 1) 1 ++ [0]
     else withOpts).length =
    withOpts.length + (if withOpts.length % 4 ≠ 0 then 4 - withOpts.length % 4 else 0) := by
  by_cases h : withOpts.length % 4 ≠ 0
  · rw [if_pos h, if_pos h]
    simp only [List.length_append, List.length_replicate, List.length_cons,
      List.length_nil]
    omega
  · rw [if_neg h, if_neg h]
    omega

theorem pad8_hbh (header : List Nat) :
    ∃ l, (if header.length % 8 ≠ 0 then
            if 8 - header.length % 8 = 1 then
              (Except.ok (header ++ [0]) : Except Err (List Nat))
            else (vecZeros (usizeSub (8 - header.length % 8) 2)).map fun zeros =>
              header ++ [1, usizeSub (8 - header.length % 8) 2 % 256] ++ zeros
          else .ok header) = .ok l ∧ l.length % 8 = 0 := by
  by_cases hp : header.length % 8 ≠ 0
  · by_cases h1 : 8 - header.length % 8 = 1
    · rw [if_pos hp, if_pos h1]
      refine ⟨header ++ [0], rfl, ?_⟩
      simp only [List.length_append, List.length_cons, List.length_nil]
      omega
    · rw [if_pos hp, if_neg h1]
      have hsub : usizeSub (8 - header.length % 8) 2 = 8 - header.length % 8 - 2 := by
        unfold usizeSub
        omega
      have hok : vecZeros (usizeSub (8 - header.length % 8) 2) =
          .ok (List.replicate (8 - header.length % 8 - 2) 0) := by
        unfold vecZeros
        rw [hsub, if_pos (by omega)]
      rw [hok]
      refine ⟨_, rfl, ?_⟩
      simp only [List.length_append, List.length_cons, List.length_nil,
        List.length_replicate, hsub]
      omega
  · rw [if_neg hp]
    exact ⟨header, rfl, by omega⟩

theorem pad8_mob (header : List Nat) :
    ∃ l, ((vecZeros (8 - header.length % 8)).map fun zeros => header ++ zeros)
        = .ok l ∧ l.length % 8 = 0 := by
  have hok : vecZeros (8 - header.length % 8) =
      .ok (List.replicate (8 - header.length % 8) 0) := by
    unfold vecZeros
    rw [if_pos (by omega)]
  rw [hok]
  refine ⟨_, rfl, ?_⟩
  simp only [List.length_append, List.length_replicate]
  omega

theorem tcp_header_length_ignores (p : TcpPacket) (d c : Nat) :
    ({ p with data_offset := d, checksum := c } : TcpPacket).header_to_bytes.length
      = p.header_to_bytes.length := by
  unfold TcpPacket.header_to_bytes
  dsimp only
  rw [pad4_len, pad4_len]
  simp [u16be, u32be]

theorem tcp_recalc_checksum_ignores (p : TcpPacket) (c : Nat) (s d : Ipv4Addr) :
    ({ p with checksum := c } : TcpPacket).recalculate_checksum s d
      = { p with checksum := (p.recalculate_checksum s d).checksum } := by
  unfold TcpPacket.recalculate_checksum TcpPacket.to_bytes TcpPacket.header_to_bytes
  dsimp only
  simp only [if_pad_factor]
  simp [u16be, u32be, Ipv4Addr.octets, List.cons_append, List.append_assoc]

theorem tcpOption_recalc_comp :
    TcpOption.recalculate_length ∘ TcpOption.recalculate_length
      = TcpOption.recalculate_length := funext fun _ => rfl

/-- Claim C2 (counterexample): decoding a buffer shorter than the minimum
does not produce a typed `LengthError` result — the 13-byte buffer makes
Ethernet decoding panic (the embedded panic value), which is not the
`lengthError` of the specification's error taxonomy. -/
theorem ethernet_short_input_not_lengthError :
    EthernetPacket.from_bytes (List.replicate 13 0) = .error .panicked ∧
    EthernetPacket.from_bytes (List.replicate 13 0) ≠ .error .lengthError := by
  constructor <;> decide

/-- Claim C2 (amended): decoding never succeeds on a buffer shorter than the
fixed minimum — 15 bytes for Ethernet (the code requires 15, not the
claimed 14), 20 for IPv4, 40 for IPv6, 20 for TCP, 8 for UDP, 28 for
fixed-mode ARP — but the failure is a panic (explicit panic or
out-of-bounds index), not a typed LengthError result; every buffer access
in the embedding is bounds-checked, so no decode reads past the end. -/
theorem decode_short_input_never_succeeds :
    (∀ b : List Nat, isOkE (EthernetPacket.from_bytes b) = true → 15 ≤ b.length) ∧
    (∀ b : List Nat, isOkE (Ipv4Packet.from_bytes b) = true → 20 ≤ b.length) ∧
    (∀ b : List Nat, isOkE (Ipv6Packet.from_bytes b) = true → 40 ≤ b.length) ∧
    (∀ b : List Nat, isOkE (TcpPacket.from_bytes b) = true → 20 ≤ b.length) ∧
    (∀ b : List Nat, isOkE (UdpPacket.from_bytes b) = true → 8 ≤ b.length) ∧
    (∀ b : List Nat, isOkE (ArpPacket.from_bytes b) = true → 28 ≤ b.length) := by
  refine ⟨fun b h => ?_, fun b h => ?_, fun b h => ?_, fun b h => ?_,
    fun b h => ?_, fun b h => ?_⟩
  · unfold EthernetPacket.from_bytes at h
    have := isOkE_ite_elim h
    omega
  · unfold Ipv4Packet.from_bytes at h
    obtain ⟨b0, h0, h⟩ := isOkE_bind h
    obtain ⟨h4, h⟩ := isOkE_ite_elim h
    have := isOkE_ite_elim h
    omega
  · unfold Ipv6Packet.from_bytes at h
    obtain ⟨b0, h0, h⟩ := isOkE_bind h
    obtain ⟨h4, h⟩ := isOkE_ite_elim h
    have := isOkE_ite_elim h
    omega
  · unfold TcpPacket.from_bytes at h
    have := isOkE_ite_elim h
    omega
  · unfold UdpPacket.from_bytes at h
    obtain ⟨b0, h0, h⟩ := isOkE_bind h
    obtain ⟨b1, h1, h⟩ := isOkE_bind h
    obtain ⟨b2, h2, h⟩ := isOkE_bind h
    obtain ⟨b3, h3, h⟩ := isOkE_bind h
    obtain ⟨b4, h4, h⟩ := isOkE_bind h
    obtain ⟨b5, h5, h⟩ := isOkE_bind h
    obtain ⟨b6, h6, h⟩ := isOkE_bind h
    obtain ⟨b7, h7, h⟩ := isOkE_bind h
    have := idx_ok_lt h7
    omega
  · unfold ArpPacket.from_bytes at h
    obtain ⟨b6, h6, h⟩ := isOkE_bind h
    obtain ⟨b7, h7, h⟩ := isOkE_bind h
    obtain ⟨op, hop, h⟩ := isOkE_bind h
    obtain ⟨b0, h0, h⟩ := isOkE_bind h
    obtain ⟨b1, h1, h⟩ := isOkE_bind h
    obtain ⟨hht, h⟩ := isOkE_ite_elim h
    obtain ⟨b2, h2, h⟩ := isOkE_bind h
    obtain ⟨b3, h3, h⟩ := isOkE_bind h
    obtain ⟨hpt, h⟩ := isOkE_ite_elim h
    obtain ⟨b4, h4, h⟩ := isOkE_bind h
    obtain ⟨hhl, h⟩ := isOkE_ite_elim h
    obtain ⟨b5, h5, h⟩ := isOkE_bind h
    obtain ⟨hpl, h⟩ := isOkE_ite_elim h
    obtain ⟨sm, hsm, h⟩ := isOkE_bind h
    obtain ⟨smac, hsmac, h⟩ := isOkE_bind h
    obtain ⟨b14, h14, h⟩ := isOkE_bind h
    obtain ⟨b15, h15, h⟩ := isOkE_bind h
    obtain ⟨b16, h16, h⟩ := isOkE_bind h
    obtain ⟨b17, h17, h⟩ := isOkE_bind h
    obtain ⟨tm, htm, h⟩ := isOkE_bind h
    obtain ⟨tmac, htmac, h⟩ := isOkE_bind h
    obtain ⟨b24, h24, h⟩ := isOkE_bind h
    obtain ⟨b25, h25, h⟩ := isOkE_bind h
    obtain ⟨b26, h26, h⟩ := isOkE_bind h
    obtain ⟨b27, h27, h⟩ := isOkE_bind h
    have := idx_ok_lt h27
    omega

/-- Witness for the amended C2: each decoder applied to a concrete buffer of
exactly its minimum decodable length succeeds, and the theorem then yields
the length bound. -/
theorem decode_short_input_never_succeeds_witness :
    15 ≤ (List.replicate 15 0 : List Nat).length ∧
    20 ≤ ([0x45, 0, 0, 20, 0, 0, 0, 0, 64, 6, 0x66, 0xE2,
           10, 0, 0, 1, 10, 0, 0, 2] : List Nat).length ∧
    40 ≤ (([0x60, 0, 0, 0, 0, 0, 59, 0] ++ List.replicate 32 0) : List Nat).length ∧
    20 ≤ (List.replicate 20 0 : List Nat).length ∧
    8 ≤ (List.replicate 8 0 : List Nat).length ∧
    28 ≤ (([0, 1, 8, 0, 6, 4, 0, 1, 0xaa, 0xbb, 0xcc, 0xdd, 0xee, 0xff,
            192, 168, 1, 1, 0, 0, 0, 0, 0, 0, 192, 168, 1, 2]) : List Nat).length :=
  ⟨decode_short_input_never_succeeds.1 _ (by decide),
   decode_short_input_never_succeeds.2.1 _ (by decide),
   decode_short_input_never_succeeds.2.2.1 _ (by decide),
   decode_short_input_never_succeeds.2.2.2.1 _ (by decide),
   decode_short_input_never_succeeds.2.2.2.2.1 _ (by decide),
   decode_short_input_never_succeeds.2.2.2.2.2 _ (by decide)⟩

/-- Claim C5 (counterexample): IPv4's upper-layer dispatch hard-fails on an
unsupported protocol number instead of returning a typed variant — on a
freshly constructed packet (protocol 0) it hits `unimplemented!`, and the
result enum `Ipv4NextLevelPacket` has no variant that could carry the raw
bytes. -/
theorem ipv4_next_level_unsupported_panics :
    Ipv4Packet.new.get_next_level_packet = .error .unimplemented := by
  decide

/-- Claim C5 (amended): IPv6's `get_next_level_packet` returns the typed
`Unimplemented` variant carrying the raw payload bytes whenever the
dispatched protocol number is neither 6 nor 17, but IPv4's
`get_next_level_packet` hits `unimplemented!` for every such number (its
result type has no unsupported-protocol variant). -/
theorem next_level_dispatch_amended :
    (∀ p : Ipv6Packet, p.next_level_protocol ≠ 6 → p.next_level_protocol ≠ 17 →
      p.get_next_level_packet = .ok (.Unimplemented p.payload)) ∧
    (∀ q : Ipv4Packet, q.protocol ≠ 6 → q.protocol ≠ 17 →
      q.get_next_level_packet = .error .unimplemented) := by
  constructor
  · intro p h6 h17
    unfold Ipv6Packet.get_next_level_packet
    split
    next heq => exact absurd heq h6
    next heq => exact absurd heq h17
    next => rfl
  · intro q h6 h17
    unfold Ipv4Packet.get_next_level_packet
    split
    next heq => exact absurd heq h6
    next heq => exact absurd heq h17
    next => rfl

/-- Witness for the amended C5 at concrete packets whose dispatched protocol
number is 0. -/
theorem next_level_dispatch_amended_witness :
    Ipv6Packet.new.get_next_level_packet =
      .ok (.Unimplemented Ipv6Packet.new.payload) ∧
    { Ipv4Packet.new with protocol := 1 }.get_next_level_packet =
      .error .unimplemented :=
  ⟨next_level_dispatch_amended.1 _ (by decide) (by decide),
   next_level_dispatch_amended.2 _ (by decide) (by decide)⟩

/-- Claim C6 (amended): `TcpPacket::header_to_bytes` always returns a
multiple of 4 bytes; among the IPv6 extension headers, `HopByHopOptions`
and `Mobility` always encode successfully to a multiple of 8 bytes, while
`Fragment` always encodes successfully to exactly `1 + payload.len()`
bytes (8 only for the 7-byte payload a decode produces); `Routing` and
`DestinationOptions` are not 8-aligned in general (and the latter panics
on 8-aligned bodies); `Ipv4Packet::header_to_bytes` cannot satisfy its
part of the claim because it always panics. -/
theorem header_padding_amended :
    (∀ t : TcpPacket, t.header_to_bytes.length % 4 = 0) ∧
    (∀ nh : Nat, ∀ opts : List Ipv6Option,
      ∃ l, Ipv6ExtensionHeader.to_bytes (.HopByHopOptions nh opts) = .ok l ∧
        l.length % 8 = 0) ∧
    (∀ nh : Nat, ∀ pl : List Nat,
      ∃ l, Ipv6ExtensionHeader.to_bytes (.Mobility nh pl) = .ok l ∧
        l.length % 8 = 0) ∧
    (∀ nh : Nat, ∀ pl : List Nat,
      Ipv6ExtensionHeader.to_bytes (.Fragment nh pl) = .ok (nh :: pl) ∧
        (nh :: pl).length = 1 + pl.length) := by
  refine ⟨fun t => ?_, fun nh opts => ?_, fun nh pl => ?_, fun nh pl => ?_⟩
  · unfold TcpPacket.header_to_bytes
    dsimp only
    split
    next hpad =>
      simp only [List.length_append, List.length_replicate, List.length_cons,
        List.length_nil]
      omega
    next hpad => omega
  · unfold Ipv6ExtensionHeader.to_bytes
    dsimp only
    exact pad8_hbh _
  · unfold Ipv6ExtensionHeader.to_bytes
    dsimp only
    exact pad8_mob _
  · exact ⟨rfl, by simp [Nat.add_comm]⟩

/-- Claim C7: every `recalculate_*` operation in the code base is
idempotent.  Pure operations are stated as `f (f x) = f x`; operations that
can panic (modelled in `Except`) are stated as `(f x).bind f = f x`, which
for a successful first call demands the second call to reproduce its result
exactly, and for a panicking first call (IPv4's recalculations always
panic via `header_to_bytes`; IPv6's `recalculate_next_header` panics on an
empty extension list; UDP's checksum panics on mixed address families)
makes the repeated call fail identically. -/
theorem recalculate_idempotent :
    (∀ o : Ipv4Option,
      o.recalculate_length.recalculate_length = o.recalculate_length) ∧
    (∀ p : Ipv4Packet,
      p.recalculate_lengths.bind Ipv4Packet.recalculate_lengths
        = p.recalculate_lengths) ∧
    (∀ p : Ipv4Packet,
      p.recalculate_checksum.bind Ipv4Packet.recalculate_checksum
        = p.recalculate_checksum) ∧
    (∀ o : TcpOption,
      o.recalculate_length.recalculate_length = o.recalculate_length) ∧
    (∀ p : TcpPacket,
      p.recalculate_data_offset.recalculate_data_offset
        = p.recalculate_data_offset) ∧
    (∀ p : TcpPacket, ∀ s d : Ipv4Addr,
      (p.recalculate_checksum s d).recalculate_checksum s d
        = p.recalculate_checksum s d) ∧
    (∀ p : TcpPacket, ∀ s d : Ipv4Addr,
      (p.recalculate_all s d).recalculate_all s d = p.recalculate_all s d) ∧
    (∀ u : UdpPacket,
      u.recalculate_length.recalculate_length = u.recalculate_length) ∧
    (∀ u : UdpPacket, ∀ s d : IpAddr,
      (u.recalculate_checksum s d).bind (fun q => q.recalculate_checksum s d)
        = u.recalculate_checksum s d) ∧
    (∀ u : UdpPacket, ∀ s d : IpAddr,
      (u.recalculate_all s d).bind (fun q => q.recalculate_all s d)
        = u.recalculate_all s d) ∧
    (∀ p : Ipv6Packet,
      p.recalculate_length.bind Ipv6Packet.recalculate_length
        = p.recalculate_length) ∧
    (∀ p : Ipv6Packet,
      p.recalculate_next_header.bind Ipv6Packet.recalculate_next_header
        = p.recalculate_next_header) ∧
    (∀ p : Ipv6Packet,
      p.recalculate_all.bind Ipv6Packet.recalculate_all = p.recalculate_all) := by
  refine ⟨fun o => rfl, fun p => ?_, fun p => ?_, fun o => rfl, fun p => ?_,
    fun p s d => ?_, fun p s d => ?_, fun u => ?_, fun u s d => ?_,
    fun u s d => ?_, fun p => ?_, fun p => ?_, fun p => ?_⟩
  · have h : p.recalculate_lengths = .error .sliceLenMismatch := by
      unfold Ipv4Packet.recalculate_lengths
      rw [ipv4_header_to_bytes_err]
      rfl
    rw [h]
    rfl
  · have h : p.recalculate_checksum = .error .sliceLenMismatch := by
      unfold Ipv4Packet.recalculate_checksum
      rw [ipv4_header_to_bytes_err]
      rfl
    rw [h]
    rfl
  · unfold TcpPacket.recalculate_data_offset
    have h := tcp_header_length_ignores p (p.header_to_bytes.length % 256) p.checksum
    simp at h ⊢
    rw [h]
  · have h1 : p.recalculate_checksum s d =
        { p with checksum := (p.recalculate_checksum s d).checksum } := by
      have h2 := tcp_recalc_checksum_ignores p p.checksum s d
      simp at h2
      rw [← h2]
    rw [h1, tcp_recalc_checksum_ignores]
  · unfold TcpPacket.recalculate_all TcpPacket.recalculate_data_offset
      TcpPacket.recalculate_checksum TcpPacket.to_bytes TcpPacket.header_to_bytes
    dsimp only
    simp only [if_pad_factor, List.map_map, tcpOption_recalc_comp]
    simp [u16be, u32be, Ipv4Addr.octets, List.cons_append, List.append_assoc]
  · unfold UdpPacket.recalculate_length UdpPacket.to_bytes UdpPacket.header_to_bytes
    simp [u16be]
  · cases s <;> cases d <;>
      · unfold UdpPacket.recalculate_checksum UdpPacket.to_bytes
          UdpPacket.header_to_bytes
        simp [u16be, u32be, Ipv4Addr.octets, Ipv6Addr.octets, List.cons_append,
          List.append_assoc, Except.bind]
  · cases s <;> cases d <;>
      · unfold UdpPacket.recalculate_all UdpPacket.recalculate_length
          UdpPacket.recalculate_checksum UdpPacket.to_bytes UdpPacket.header_to_bytes
        simp [u16be, u32be, Ipv4Addr.octets, Ipv6Addr.octets, List.cons_append,
          List.append_assoc, Except.bind]
  · unfold Ipv6Packet.recalculate_length
    cases hf : ipv6LenFold p.extension_headers (p.payload.length % 65536) with
    | error e => rfl
    | ok len => simp [Except.map, Except.bind, hf]
  · unfold Ipv6Packet.recalculate_next_header
    cases p.extension_headers <;> rfl
  · unfold Ipv6Packet.recalculate_all Ipv6Packet.recalculate_length
      Ipv6Packet.recalculate_next_header
    cases hf : ipv6LenFold p.extension_headers (p.payload.length % 65536) with
    | error e => rfl
    | ok len =>
      cases hx : p.extension_headers with
      | nil => simp [Except.map, Except.bind, hf, hx]
      | cons a t =>
        rw [hx] at hf
        simp [Except.map, Except.bind, hf, hx]
